import Mathlib

/-!
Shallow embedding of `src/core/gpu/wgpu.rs` (gyroflow wgpu wrapper).

Pixel buffers are modelled as `List Nat` (byte sequences); GPU-side objects
(device, queue, textures, buffers, pipeline) are not values we can inspect,
so the embedding records the queue/encoder operations issued to them as an
event trace, and models the frame readback by taking the staging-buffer
contents after the render as an oracle parameter, together with a flag for
whether the blocking map-for-read succeeded.
-/

namespace Gyroflow

/-- Modelled from the spec: `BufferSource` (defined in this repository outside
`src/`) is a closed set of residency variants: `None`, CPU-owned byte buffers,
and opaque handles for the foreign GPU APIs (OpenCL, DirectX, OpenGL, Vulkan).
Opaque handles are modelled as a `Nat` payload. -/
inductive BufferSource where
  | None : BufferSource
  | Cpu (input : List Nat) (output : List Nat) : BufferSource
  | OpenCL (handle : Nat) : BufferSource
  | DirectX (handle : Nat) : BufferSource
  | OpenGL (handle : Nat) : BufferSource
  | Vulkan (handle : Nat) : BufferSource
deriving DecidableEq, Repr

/-- Modelled from the spec: `BufferDescription` (defined outside `src/`) holds
geometry triples (width, height, stride in bytes) for input and output plus a
`BufferSource`. -/
structure BufferDescription where
  input_size : Nat × Nat × Nat
  output_size : Nat × Nat × Nat
  buffers : BufferSource
deriving DecidableEq, Repr

/-- Modelled from the spec: `KernelParams` (defined outside `src/`), the
fixed-layout record of `i32` fields used by `new`: input width/height/stride,
output width/height, interpolation mode and flags bitmask (bit 3 = overlay
enabled). Only the fields read by the code under `src/` are modelled; the
signed fields are `Int`, the bitmask is a `Nat`. -/
structure KernelParams where
  width : Int
  height : Int
  output_width : Int
  output_height : Int
  stride : Int
  interpolation : Nat
  flags : Nat
deriving DecidableEq, Repr

/-- Modelled from the spec: `FrameTransform` (defined outside `src/`) is an
ordered sequence of 3x3 `f32` row-correction matrices plus an embedded
`KernelParams` snapshot. A matrix is 9 floats = 36 bytes when cast to a byte
slice, so matrices are modelled only by their count (their float contents are
never inspected by the wrapper). -/
structure FrameTransform where
  matrices_count : Nat
  kernel_params : KernelParams
deriving DecidableEq, Repr

/-- Byte length of `bytemuck::cast_slice(&itm.matrices)`: 9 floats x 4 bytes
per matrix. -/
def FrameTransform.matricesByteLen (itm : FrameTransform) : Nat :=
  36 * itm.matrices_count

/-- The state of `WgpuWrapper` (struct at `wgpu.rs:13`) restricted to the
fields read by `undistort_image`; the opaque GPU handles are replaced by the
event trace of the functions below. -/
structure WgpuWrapper where
  padded_out_stride : Nat
  in_size : Nat
  out_size : Nat
  params_size : Nat
  drawing_size : Nat
deriving DecidableEq, Repr

/-- Queue / command-encoder operations issued by `undistort_image`, in order.
`Submit` carries whether the submitted batch includes the texture-to-staging
copy (recorded only for a CPU destination). -/
inductive GpuEvent where
  | WriteTexture (byteLen : Nat) (bytesPerRow : Nat) : GpuEvent
  | WriteBufMatrices (byteLen : Nat) : GpuEvent
  | WriteBufParams : GpuEvent
  | WriteBufDrawing (byteLen : Nat) : GpuEvent
  | Submit (withStagingCopy : Bool) : GpuEvent
deriving DecidableEq, Repr

/-- GPU resource allocations performed by `new`. -/
inductive AllocEvent where
  | StagingBuffer (size : Nat) : AllocEvent
  | MatricesBuffer (size : Nat) : AllocEvent
  | ParamsBuffer : AllocEvent
  | DrawingBuffer (size : Nat) : AllocEvent
  | CoeffsBuffer : AllocEvent
  | InPixels (w h : Nat) : AllocEvent
  | OutPixels (w h : Nat) : AllocEvent
deriving DecidableEq, Repr

/-- Rust `usize as i32` (truncating two's-complement cast). -/
def i32_of_usize (n : Nat) : Int :=
  let m : Nat := n % 2 ^ 32
  if m < 2 ^ 31 then (m : Int) else (m : Int) - 2 ^ 32

/-- Rust `i32 as usize` (sign-extend to 64 bits, reinterpret). -/
def usize_of_i32 (x : Int) : Nat := (x % 2 ^ 64).toNat

/-- Rust `i32 as u64`. -/
def u64_of_i32 (x : Int) : Nat := (x % 2 ^ 64).toNat

/-- Rust `i32 as u32`. -/
def u32_of_i32 (x : Int) : Nat := (x % 2 ^ 32).toNat

/-- Rust `usize as u32`. -/
def u32_of_usize (n : Nat) : Nat := n % 2 ^ 32

/-- Constant `wgpu::COPY_BYTES_PER_ROW_ALIGNMENT`, the platform row-byte alignment. -/
def COPY_BYTES_PER_ROW_ALIGNMENT : Nat := 256

/-- Computation `let padding = (align - output_stride % align) % align;` (wgpu.rs:157)
with `align = COPY_BYTES_PER_ROW_ALIGNMENT as i32`; Rust `%` on `i32` is the
truncated remainder `Int.tmod`. -/
def padding_for (output_stride : Int) : Int :=
  let align : Int := (COPY_BYTES_PER_ROW_ALIGNMENT : Int)
  Int.tmod (align - Int.tmod output_stride align) align

/-- Computation `let padded_out_stride = output_stride + padding;` (wgpu.rs:158). -/
def padded_out_stride_for (output_stride : Int) : Int :=
  output_stride + padding_for output_stride

/-- Build function `WgpuWrapper::new` (wgpu.rs:105), with adapter availability and device
acquisition as boolean oracles (they depend on the host machine), returning
the constructed state together with the GPU allocations performed.
The shader-source assembly (pure string substitution) does not affect any
claim and is not tracked beyond the `drawing_enabled`-dependent override of
`drawing_len`. -/
def WgpuWrapper.new (adapterOk deviceOk : Bool) (params : KernelParams)
    (buffers : BufferDescription) (drawing_len : Nat) :
    Option WgpuWrapper × List AllocEvent :=
  let max_matrix_count := 9 * usize_of_i32 params.height
  if params.height < 4 ∨ params.output_height < 4 ∨ params.stride < 1 ∨
      params.width > 8192 ∨ params.output_width > 8192 then (none, [])
  else
    let output_height := i32_of_usize buffers.output_size.2.1
    let output_stride := i32_of_usize buffers.output_size.2.2
    let in_size := buffers.input_size.2.2 * buffers.input_size.2.1
    let out_size := buffers.output_size.2.2 * buffers.output_size.2.1
    let params_size := max_matrix_count * 4
    let drawing_enabled := params.flags.land 8 = 8
    if adapterOk && deviceOk then
      let drawing_len := if drawing_enabled then drawing_len else 16
      let padding := padding_for output_stride
      let padded_out_stride := output_stride + padding
      let staging_size := padded_out_stride * output_height
      let allocs : List AllocEvent :=
        [ .StagingBuffer (u64_of_i32 staging_size),
          .MatricesBuffer params_size,
          .ParamsBuffer,
          .DrawingBuffer drawing_len,
          .CoeffsBuffer,
          .InPixels buffers.input_size.1 buffers.input_size.2.1,
          .OutPixels buffers.output_size.1 buffers.output_size.2.1 ]
      (some { padded_out_stride := u32_of_i32 padded_out_stride,
              in_size := in_size,
              out_size := out_size,
              params_size := params_size,
              drawing_size := drawing_len }, allocs)
    else (none, [])

/-- Fuel-indexed core of Rust `slice::chunks(n)`: splits a list into pieces
of length `n`, the last possibly shorter. Structural in the fuel so the
kernel can evaluate it; `chunks` supplies `l.length` as fuel, which is
enough whenever `1 ≤ n`. -/
def chunksGo (n : Nat) : Nat → List Nat → List (List Nat)
  | 0, _ => []
  | _, [] => []
  | fuel + 1, a :: l => (a :: l).take n :: chunksGo n fuel ((a :: l).drop n)

/-- Rust `slice::chunks(n)` on byte lists (`n = 0` panics in Rust and is
never reached; it is mapped to `[]`). -/
def chunks (n : Nat) (l : List Nat) : List (List Nat) :=
  chunksGo n l.length l

/-- The destriping readback copy (wgpu.rs:380):
`data.par_chunks(padded).zip(output.par_chunks_mut(stride)).for_each(|(src, dest)| dest.copy_from_slice(&src[0..stride]))`.
Each zipped output row is replaced by the first `stride` bytes of the
corresponding padded staging row; output rows beyond the zip (none under the
wrapper's size invariants) keep their old bytes. `copy_from_slice` and the
`src[0..stride]` index panic on length mismatch in Rust; under the size
checks of `undistort_image` every zipped row has exactly the right lengths,
so the model replaces the row unconditionally. -/
def destriped (padded stride : Nat) (data output : List Nat) : List Nat :=
  let pairs := (chunks padded data).zip (chunks stride output)
  (pairs.map (fun p => p.1.take stride)).flatten
    ++ ((chunks stride output).drop pairs.length).flatten

/-- Continuation of `undistort_image` past the residency dispatch
(wgpu.rs:308 onward): the matrix-capacity check, the matrix / params /
optional overlay uploads, the render-pass submission, and — for a CPU
destination — the blocking readback with the fast-path or destriping copy.
`ev0` is the event trace issued by the dispatch (the CPU texture upload, or
nothing). -/
def WgpuWrapper.undistort_rest (s : WgpuWrapper) (buffers : BufferDescription)
    (itm : FrameTransform) (drawing_buffer : List Nat)
    (staging : List Nat) (mapOk : Bool) (ev0 : List GpuEvent) :
    Bool × BufferDescription × List GpuEvent :=
  let matrices_len := itm.matricesByteLen
  if s.params_size < matrices_len then (false, buffers, ev0)
  else
    let ev1 := ev0 ++ [.WriteBufMatrices matrices_len, .WriteBufParams]
    if drawing_buffer ≠ [] ∧ s.drawing_size < drawing_buffer.length then
      (false, buffers, ev1)
    else
      let ev2 := ev1 ++
        if drawing_buffer = [] then []
        else [.WriteBufDrawing drawing_buffer.length]
      let isCpu : Bool :=
        match buffers.buffers with
        | .Cpu _ _ => true
        | _ => false
      let ev3 := ev2 ++ [.Submit isCpu]
      match buffers.buffers with
      | .Cpu input output =>
        if mapOk then
          let outNew :=
            if s.padded_out_stride = u32_of_usize buffers.output_size.2.2
            then staging
            else destriped s.padded_out_stride buffers.output_size.2.2
                   staging output
          (true, { buffers with buffers := .Cpu input outNew }, ev3)
        else (false, buffers, ev3)
      | _ => (true, buffers, ev3)

/-- Per-frame processor `WgpuWrapper::undistort_image` (wgpu.rs:271). Returns the success flag,
the (possibly updated) buffer description, and the trace of queue operations
issued, in order. `staging` is the staging-buffer contents made visible by a
successful map (its size is `padded_out_stride * output_height` by
construction of the staging buffer); `mapOk` tells whether the blocking
`map_async` / `poll` wait completed with `Ok`. The residency dispatch
(wgpu.rs:274) returns false early for OpenCL / DirectX / OpenGL, uploads the
host pixels (after the size checks) for `Cpu`, and falls through for `None`
and `Vulkan`. -/
def WgpuWrapper.undistort_image (s : WgpuWrapper) (buffers : BufferDescription)
    (itm : FrameTransform) (drawing_buffer : List Nat)
    (staging : List Nat) (mapOk : Bool) :
    Bool × BufferDescription × List GpuEvent :=
  match buffers.buffers with
  | .None => s.undistort_rest buffers itm drawing_buffer staging mapOk []
  | .Cpu input output =>
      if s.in_size ≠ input.length then (false, buffers, [])
      else if s.out_size ≠ output.length then (false, buffers, [])
      else s.undistort_rest buffers itm drawing_buffer staging mapOk
        [.WriteTexture input.length buffers.input_size.2.2]
  | .OpenCL _ => (false, buffers, [])
  | .DirectX _ => (false, buffers, [])
  | .OpenGL _ => (false, buffers, [])
  | .Vulkan _ => s.undistort_rest buffers itm drawing_buffer staging mapOk []

/-- The linear scan of `set_device` (wgpu.rs:56): walk the enumerated
adapters with a counter, returning the one whose position equals `index`. -/
def set_device_loop {α : Type} (index : Nat) (i : Nat) :
    List α → Option α
  | [] => none
  | a :: rest =>
      if i = index then some a else set_device_loop index (i + 1) rest

/-- Device selection `WgpuWrapper::set_device` (wgpu.rs:49) over the most recent adapter
enumeration: on success stores the selected adapter in the global `ADAPTER`
slot and returns `some ()`; otherwise leaves the slot at its previous value
and returns `none`. The result pairs the return value with the new contents
of the `ADAPTER` slot. -/
def set_device {α : Type} (index : Nat) (adapters : List α)
    (prevAdapter : Option α) : Option Unit × Option α :=
  match set_device_loop index 0 adapters with
  | some a => (some (), some a)
  | none => (none, prevAdapter)

/-- Residency support query `is_buffer_supported` (wgpu.rs:401). -/
def is_buffer_supported (buffers : BufferDescription) : Bool :=
  match buffers.buffers with
  | .None => false
  | .Cpu _ _ => true
  | .OpenGL _ => false
  | .DirectX _ => false
  | .OpenCL _ => false
  | .Vulkan _ => false

theorem new_some_eq {aOk dOk : Bool} {p : KernelParams}
    {bd : BufferDescription} {dl : Nat} {s : WgpuWrapper}
    (h : (WgpuWrapper.new aOk dOk p bd dl).1 = some s) :
    s = { padded_out_stride :=
            u32_of_i32 (padded_out_stride_for (i32_of_usize bd.output_size.2.2)),
          in_size := bd.input_size.2.2 * bd.input_size.2.1,
          out_size := bd.output_size.2.2 * bd.output_size.2.1,
          params_size := 9 * usize_of_i32 p.height * 4,
          drawing_size := if p.flags.land 8 = 8 then dl else 16 } := by
  simp only [WgpuWrapper.new, padded_out_stride_for] at h
  split at h
  · simp at h
  · split at h
    · simp only [Prod.fst, Option.some.injEq] at h
      exact h.symm
    · simp at h

/-- C6: build computes `padding = (align - stride % align) % align` and
`padded_out_stride = stride + padding` with `align = 256`; for every output
stride in `[1, 32768]` the padded stride is at least the stride and is a
multiple of 256; stride 1000 gives padding 24 and padded stride 1024. -/
theorem padded_out_stride_spec (s : Nat) (h1 : 1 ≤ s) (h2 : s ≤ 32768) :
    padding_for (s : Int) = (((COPY_BYTES_PER_ROW_ALIGNMENT : Int)
        - (s : Int) % (COPY_BYTES_PER_ROW_ALIGNMENT : Int))
        % (COPY_BYTES_PER_ROW_ALIGNMENT : Int)) ∧
    padded_out_stride_for (s : Int) = (s : Int) + padding_for (s : Int) ∧
    (s : Int) ≤ padded_out_stride_for (s : Int) ∧
    padded_out_stride_for (s : Int) % 256 = 0 ∧
    (s = 1000 → padding_for (s : Int) = 24 ∧
      padded_out_stride_for (s : Int) = 1024) := by
  have hs : (0 : Int) ≤ (s : Int) := Int.ofNat_nonneg s
  have h256 : (0 : Int) ≤ 256 := by norm_num
  have ht1 : Int.tmod (s : Int) 256 = (s : Int) % 256 :=
    Int.tmod_eq_emod hs h256
  have hm : (0 : Int) ≤ (s : Int) % 256 ∧ (s : Int) % 256 < 256 := by
    constructor
    · exact Int.emod_nonneg _ (by norm_num)
    · exact Int.emod_lt_of_pos _ (by norm_num)
  have ht2 : Int.tmod (256 - (s : Int) % 256) 256
      = (256 - (s : Int) % 256) % 256 :=
    Int.tmod_eq_emod (by omega) h256
  have hpad : padding_for (s : Int) = (256 - (s : Int) % 256) % 256 := by
    simp only [padding_for, COPY_BYTES_PER_ROW_ALIGNMENT, Nat.cast_ofNat]
    rw [ht1]
    exact_mod_cast ht2
  refine ⟨?_, rfl, ?_, ?_, ?_⟩
  · simpa [COPY_BYTES_PER_ROW_ALIGNMENT] using hpad
  · simp only [padded_out_stride_for, hpad]
    have : (0 : Int) ≤ (256 - (s : Int) % 256) % 256 :=
      Int.emod_nonneg _ (by norm_num)
    omega
  · simp only [padded_out_stride_for, hpad]
    omega
  · intro hse
    subst hse
    constructor
    · rw [hpad]; decide
    · simp only [padded_out_stride_for]; rw [hpad]; decide

/-- Witness for C6 at stride 1000. -/
theorem padded_out_stride_spec_witness :
    (1 ≤ 1000 ∧ 1000 ≤ 32768) ∧ padded_out_stride_for (1000 : Int) % 256 = 0 :=
  ⟨by decide, (padded_out_stride_spec 1000 (by decide) (by decide)).2.2.2.1⟩

/-- C7: build rejects (returns nothing, allocating no GPU resources) when
input height < 4, output height < 4, stride < 1, or either width
exceeds 8192. -/
theorem new_rejects_bad_geometry (aOk dOk : Bool) (p : KernelParams)
    (bd : BufferDescription) (dl : Nat)
    (h : p.height < 4 ∨ p.output_height < 4 ∨ p.stride < 1 ∨
      p.width > 8192 ∨ p.output_width > 8192) :
    WgpuWrapper.new aOk dOk p bd dl = (none, []) := by
  simp only [WgpuWrapper.new]
  rw [if_pos h]

/-- Witness for C7: a build input with input height 3. -/
theorem new_rejects_bad_geometry_witness :
    ((3 : Int) < 4 ∨ (4 : Int) < 4 ∨ (1 : Int) < 1 ∨
      (1 : Int) > 8192 ∨ (1 : Int) > 8192) ∧
    WgpuWrapper.new true true ⟨1, 3, 1, 4, 1, 0, 0⟩
      ⟨(1, 3, 1), (1, 4, 1), .None⟩ 16 = (none, []) :=
  ⟨by decide,
    new_rejects_bad_geometry true true ⟨1, 3, 1, 4, 1, 0, 0⟩
      ⟨(1, 3, 1), (1, 4, 1), .None⟩ 16 (by decide)⟩

theorem set_device_loop_none {α : Type} :
    ∀ (l : List α) (i index : Nat), index < i →
      set_device_loop index i l = none := by
  intro l
  induction l with
  | nil => intro i index _; rfl
  | cons a t ih =>
      intro i index h
      simp only [set_device_loop]
      rw [if_neg (by omega)]
      exact ih (i + 1) index (by omega)

theorem set_device_loop_getElem {α : Type} :
    ∀ (l : List α) (i index : Nat), i ≤ index →
      set_device_loop index i l = l[index - i]? := by
  intro l
  induction l with
  | nil => intro i index _; simp [set_device_loop]
  | cons a t ih =>
      intro i index h
      simp only [set_device_loop]
      by_cases hi : i = index
      · subst hi
        rw [if_pos rfl]
        simp
      · rw [if_neg hi]
        rw [ih (i + 1) index (by omega)]
        have hd : index - i = (index - (i + 1)) + 1 := by omega
        rw [hd]
        simp

/-- C8: `set_device(index)` fails (selecting nothing, leaving the stored
adapter unchanged) when `index` is out of range of the enumeration, and
otherwise stores the adapter at that positional index and returns success. -/
theorem set_device_spec {α : Type} (index : Nat) (adapters : List α)
    (prev : Option α) :
    (∀ h : index < adapters.length,
      set_device index adapters prev
        = (some (), some (adapters.get ⟨index, h⟩))) ∧
    (adapters.length ≤ index →
      set_device index adapters prev = (none, prev)) := by
  constructor
  · intro h
    simp only [set_device]
    rw [set_device_loop_getElem adapters 0 index (Nat.zero_le index)]
    simp only [Nat.sub_zero]
    rw [List.getElem?_eq_getElem h]
    rfl
  · intro h
    simp only [set_device]
    rw [set_device_loop_getElem adapters 0 index (Nat.zero_le index)]
    simp only [Nat.sub_zero]
    rw [List.getElem?_eq_none h]

/-- Witness for C8: index 1 into a three-adapter enumeration selects the
second adapter; index 5 is rejected. -/
theorem set_device_spec_witness :
    set_device 1 [10, 20, 30] (none : Option Nat) = (some (), some 20) ∧
    set_device 5 [10, 20, 30] (some 7) = (none, some 7) :=
  ⟨(set_device_spec 1 [10, 20, 30] none).1 (by decide),
   (set_device_spec 5 [10, 20, 30] (some 7)).2 (by decide)⟩

/-- C9: `is_buffer_supported` is true exactly for the CPU variant; every
other variant, the Vulkan native one included, is reported unsupported. -/
theorem is_buffer_supported_spec :
    (∀ bd : BufferDescription,
      (is_buffer_supported bd = true ↔
        ∃ i o, bd.buffers = BufferSource.Cpu i o)) ∧
    (∀ insz outsz : Nat × Nat × Nat, ∀ hdl : Nat,
      is_buffer_supported ⟨insz, outsz, .None⟩ = false ∧
      is_buffer_supported ⟨insz, outsz, .OpenGL hdl⟩ = false ∧
      is_buffer_supported ⟨insz, outsz, .DirectX hdl⟩ = false ∧
      is_buffer_supported ⟨insz, outsz, .OpenCL hdl⟩ = false ∧
      is_buffer_supported ⟨insz, outsz, .Vulkan hdl⟩ = false) := by
  constructor
  · intro bd
    obtain ⟨insz, outsz, bs⟩ := bd
    cases bs <;> simp [is_buffer_supported]
  · intro insz outsz hdl
    refine ⟨rfl, rfl, rfl, rfl, rfl⟩

/-- Witness for C9: the Vulkan variant is reported unsupported while the
CPU variant is supported. -/
theorem is_buffer_supported_spec_witness :
    is_buffer_supported ⟨(1, 1, 1), (1, 1, 1), .Vulkan 0⟩ = false ∧
    (is_buffer_supported ⟨(1, 1, 1), (1, 1, 1), .Cpu [5] [6]⟩ = true ↔
      ∃ i o, (⟨(1, 1, 1), (1, 1, 1), .Cpu [5] [6]⟩
          : BufferDescription).buffers = BufferSource.Cpu i o) :=
  ⟨(is_buffer_supported_spec.2 (1, 1, 1) (1, 1, 1) 0).2.2.2.2,
   is_buffer_supported_spec.1 ⟨(1, 1, 1), (1, 1, 1), .Cpu [5] [6]⟩⟩

/-- C10: an empty overlay slice skips both the overlay size check and the
overlay upload: the call's result does not depend on the overlay capacity
fixed at build time, and no overlay upload is ever issued. -/
theorem undistort_empty_overlay (s : WgpuWrapper) (d : Nat)
    (bd : BufferDescription) (itm : FrameTransform)
    (staging : List Nat) (mapOk : Bool) :
    WgpuWrapper.undistort_image { s with drawing_size := d } bd itm []
        staging mapOk
      = s.undistort_image bd itm [] staging mapOk ∧
    ∀ len, GpuEvent.WriteBufDrawing len
      ∉ (s.undistort_image bd itm [] staging mapOk).2.2 := by
  obtain ⟨insz, outsz, bs⟩ := bd
  constructor
  · cases bs <;>
      simp only [WgpuWrapper.undistort_image, WgpuWrapper.undistort_rest] <;>
      (try split_ifs) <;>
      simp_all
  · intro len
    cases bs <;>
      simp only [WgpuWrapper.undistort_image, WgpuWrapper.undistort_rest] <;>
      (try split_ifs) <;>
      simp_all

/-- Witness for C10: with an empty overlay a wrapper with overlay capacity 0
behaves exactly like one with capacity 16. -/
theorem undistort_empty_overlay_witness :
    WgpuWrapper.undistort_image ⟨256, 2, 2, 36, 0⟩
        ⟨(2, 1, 2), (2, 1, 2), .Vulkan 0⟩ ⟨1, ⟨0, 0, 0, 0, 0, 0, 0⟩⟩
        [] [] true
      = WgpuWrapper.undistort_image ⟨256, 2, 2, 36, 16⟩
        ⟨(2, 1, 2), (2, 1, 2), .Vulkan 0⟩ ⟨1, ⟨0, 0, 0, 0, 0, 0, 0⟩⟩
        [] [] true :=
  (undistort_empty_overlay ⟨256, 2, 2, 36, 16⟩ 0
    ⟨(2, 1, 2), (2, 1, 2), .Vulkan 0⟩ ⟨1, ⟨0, 0, 0, 0, 0, 0, 0⟩⟩ [] true).1

/-- C4: whenever `undistort_image` returns false, the buffer description
(and with it the caller's output buffer) is left exactly as it was: no
failure path performs a partial overwrite. -/
theorem undistort_false_unchanged (s : WgpuWrapper) (bd : BufferDescription)
    (itm : FrameTransform) (drawing staging : List Nat) (mapOk : Bool)
    (h : (s.undistort_image bd itm drawing staging mapOk).1 = false) :
    (s.undistort_image bd itm drawing staging mapOk).2.1 = bd := by
  obtain ⟨insz, outsz, bs⟩ := bd
  cases bs <;>
    simp only [WgpuWrapper.undistort_image, WgpuWrapper.undistort_rest] at h ⊢ <;>
    (try split_ifs at h ⊢) <;>
    simp_all

/-- Witness for C4: a map failure on a CPU destination returns false and
leaves the buffers untouched. -/
theorem undistort_false_unchanged_witness :
    (WgpuWrapper.undistort_image ⟨256, 2, 2, 72, 16⟩
      ⟨(2, 1, 2), (2, 1, 2), .Cpu [9, 9] [7, 7]⟩
      ⟨1, ⟨0, 0, 0, 0, 0, 0, 0⟩⟩ [] [] false).1 = false ∧
    (WgpuWrapper.undistort_image ⟨256, 2, 2, 72, 16⟩
      ⟨(2, 1, 2), (2, 1, 2), .Cpu [9, 9] [7, 7]⟩
      ⟨1, ⟨0, 0, 0, 0, 0, 0, 0⟩⟩ [] [] false).2.1
      = ⟨(2, 1, 2), (2, 1, 2), .Cpu [9, 9] [7, 7]⟩ :=
  ⟨by decide,
    undistort_false_unchanged ⟨256, 2, 2, 72, 16⟩
      ⟨(2, 1, 2), (2, 1, 2), .Cpu [9, 9] [7, 7]⟩
      ⟨1, ⟨0, 0, 0, 0, 0, 0, 0⟩⟩ [] [] false (by decide)⟩

/-- C1 counterexample: the `None` variant is neither the CPU variant nor the
Vulkan (GPU-native) variant, yet `undistort_image` does not return false for
it — it falls through the dispatch, issues GPU work, and returns true. -/
theorem undistort_none_returns_true :
    (⟨(8, 1, 8), (8, 1, 8), .None⟩ : BufferDescription).buffers
        = BufferSource.None ∧
    (WgpuWrapper.undistort_image ⟨256, 8, 8, 36, 16⟩
        ⟨(8, 1, 8), (8, 1, 8), .None⟩ ⟨1, ⟨0, 0, 0, 0, 0, 0, 0⟩⟩
        [] [] true)
      = (true, ⟨(8, 1, 8), (8, 1, 8), .None⟩,
          [.WriteBufMatrices 36, .WriteBufParams, .Submit false]) := by
  constructor
  · rfl
  · decide

/-- C1 (amended): for the foreign-API variants with no implemented upload
path — OpenCL, DirectX, OpenGL — `undistort_image` returns false
immediately, with no GPU work issued and no texture mutation (empty event
trace) and the buffers untouched; the `None` variant, like Vulkan, falls
through the dispatch instead. -/
theorem undistort_unsupported_residency (s : WgpuWrapper)
    (bd : BufferDescription) (itm : FrameTransform)
    (drawing staging : List Nat) (mapOk : Bool)
    (h : (∃ hdl, bd.buffers = BufferSource.OpenCL hdl) ∨
      (∃ hdl, bd.buffers = BufferSource.DirectX hdl) ∨
      (∃ hdl, bd.buffers = BufferSource.OpenGL hdl)) :
    s.undistort_image bd itm drawing staging mapOk = (false, bd, []) := by
  obtain ⟨insz, outsz, bs⟩ := bd
  rcases h with ⟨hdl, hb⟩ | ⟨hdl, hb⟩ | ⟨hdl, hb⟩ <;>
    (simp only at hb; subst hb; rfl)

/-- Witness for C1 at the OpenGL variant. -/
theorem undistort_unsupported_residency_witness :
    WgpuWrapper.undistort_image ⟨256, 8, 8, 36, 16⟩
        ⟨(8, 1, 8), (8, 1, 8), .OpenGL 3⟩ ⟨1, ⟨0, 0, 0, 0, 0, 0, 0⟩⟩
        [] [] true
      = (false, ⟨(8, 1, 8), (8, 1, 8), .OpenGL 3⟩, []) :=
  undistort_unsupported_residency ⟨256, 8, 8, 36, 16⟩
    ⟨(8, 1, 8), (8, 1, 8), .OpenGL 3⟩ ⟨1, ⟨0, 0, 0, 0, 0, 0, 0⟩⟩
    [] [] true (Or.inr (Or.inr ⟨3, rfl⟩))

/-- C2 counterexample: a matrix byte length that disagrees with (is smaller
than) the capacity fixed at build time does not make the call fail — the
matrix check is a capacity bound, not an equality — so the call succeeds
with 36 matrix bytes against a 72-byte build-time size. -/
theorem undistort_matrix_disagreement_passes :
    (FrameTransform.matricesByteLen ⟨1, ⟨0, 0, 0, 0, 0, 0, 0⟩⟩ = 36 ∧
      (36 : Nat) ≠ 72) ∧
    (WgpuWrapper.undistort_image ⟨256, 8, 8, 72, 16⟩
        ⟨(8, 1, 8), (8, 1, 8), .Vulkan 0⟩ ⟨1, ⟨0, 0, 0, 0, 0, 0, 0⟩⟩
        [] [] true).1 = true := by
  constructor
  · exact ⟨rfl, by decide⟩
  · decide

/-- C2 (amended): with a wrapper built by `new`, a CPU input or output
buffer whose byte length differs from the corresponding size fixed at build
time (`input_stride * input_height`, resp. `output_stride * output_height`)
makes `undistort_image` return false with zero GPU commands issued; the
matrix and (non-empty) overlay lengths are validated only against the
build-time capacities — exceeding them returns false, though with a CPU
source the input texture upload has by then already been issued. -/
theorem undistort_size_mismatch (aOk dOk : Bool) (p : KernelParams)
    (bd : BufferDescription) (dl : Nat) (s : WgpuWrapper)
    (itm : FrameTransform) (input output drawing staging : List Nat)
    (mapOk : Bool)
    (hnew : (WgpuWrapper.new aOk dOk p bd dl).1 = some s) :
    (input.length ≠ bd.input_size.2.2 * bd.input_size.2.1 →
      s.undistort_image { bd with buffers := .Cpu input output }
          itm drawing staging mapOk
        = (false, { bd with buffers := .Cpu input output }, [])) ∧
    (output.length ≠ bd.output_size.2.2 * bd.output_size.2.1 →
      s.undistort_image { bd with buffers := .Cpu input output }
          itm drawing staging mapOk
        = (false, { bd with buffers := .Cpu input output }, [])) ∧
    (s.params_size < itm.matricesByteLen →
      (s.undistort_image { bd with buffers := .Cpu input output }
          itm drawing staging mapOk).1 = false ∧
      (input.length = bd.input_size.2.2 * bd.input_size.2.1 →
        output.length = bd.output_size.2.2 * bd.output_size.2.1 →
        (s.undistort_image { bd with buffers := .Cpu input output }
            itm drawing staging mapOk).2.2
          = [GpuEvent.WriteTexture input.length bd.input_size.2.2])) ∧
    (drawing ≠ [] → s.drawing_size < drawing.length →
      (s.undistort_image { bd with buffers := .Cpu input output }
          itm drawing staging mapOk).1 = false) := by
  have hs := new_some_eq hnew
  have hsin : s.in_size = bd.input_size.2.2 * bd.input_size.2.1 := by
    rw [hs]
  have hsout : s.out_size = bd.output_size.2.2 * bd.output_size.2.1 := by
    rw [hs]
  clear hs hnew
  obtain ⟨bins, bouts, bbs⟩ := bd
  simp only at hsin hsout
  refine ⟨?_, ?_, ?_, ?_⟩
  · intro hin
    simp only [WgpuWrapper.undistort_image, WgpuWrapper.undistort_rest]
    split_ifs <;> simp_all
  · intro hout
    simp only [WgpuWrapper.undistort_image, WgpuWrapper.undistort_rest]
    split_ifs <;> simp_all
  · intro hmat
    constructor
    · simp only [WgpuWrapper.undistort_image, WgpuWrapper.undistort_rest]
      split_ifs <;> simp_all
    · intro hin hout
      simp only [WgpuWrapper.undistort_image, WgpuWrapper.undistort_rest]
      split_ifs <;> simp_all
  · intro hne hover
    simp only [WgpuWrapper.undistort_image, WgpuWrapper.undistort_rest]
    split_ifs <;> simp_all

/-- Witness for C2: a build with 1 x 4 geometry and an empty (length 0,
expected 4) input buffer yields false with an empty command trace. -/
theorem undistort_size_mismatch_witness :
    (WgpuWrapper.new true true ⟨1, 4, 1, 4, 1, 0, 0⟩
        ⟨(1, 4, 1), (1, 4, 1), .None⟩ 16).1 = some ⟨256, 4, 4, 144, 16⟩ ∧
    WgpuWrapper.undistort_image ⟨256, 4, 4, 144, 16⟩
        ⟨(1, 4, 1), (1, 4, 1), .Cpu [] [0, 0, 0, 0]⟩
        ⟨0, ⟨0, 0, 0, 0, 0, 0, 0⟩⟩ [] [] true
      = (false, ⟨(1, 4, 1), (1, 4, 1), .Cpu [] [0, 0, 0, 0]⟩, []) :=
  ⟨by decide,
    (undistort_size_mismatch true true ⟨1, 4, 1, 4, 1, 0, 0⟩
        ⟨(1, 4, 1), (1, 4, 1), .None⟩ 16 ⟨256, 4, 4, 144, 16⟩
        ⟨0, ⟨0, 0, 0, 0, 0, 0, 0⟩⟩ [] [0, 0, 0, 0] [] [] true
        (by decide)).1 (by decide)⟩

theorem writeBufMatrices_fits (s : WgpuWrapper) (bd : BufferDescription)
    (itm : FrameTransform) (drawing staging : List Nat) (mapOk : Bool)
    (len : Nat)
    (h : GpuEvent.WriteBufMatrices len
      ∈ (s.undistort_image bd itm drawing staging mapOk).2.2) :
    len ≤ s.params_size := by
  obtain ⟨insz, outsz, bs⟩ := bd
  cases bs <;>
    simp only [WgpuWrapper.undistort_image, WgpuWrapper.undistort_rest] at h <;>
    (try split_ifs at h) <;>
    simp_all

/-- C5 counterexample: a build with input height 4 and output height 8
allocates a matrix buffer of 9 x 4 (input height) x 4 = 144 bytes, not
9 x 8 (output height) x 4 = 288 bytes as the claim states. -/
theorem matrix_capacity_uses_input_height :
    (WgpuWrapper.new true true ⟨1, 4, 1, 8, 1, 0, 0⟩
        ⟨(1, 4, 1), (1, 8, 1), .None⟩ 16).1 = some ⟨256, 4, 8, 144, 16⟩ ∧
    (144 : Nat) ≠ 9 * 8 * 4 := by
  constructor
  · decide
  · decide

/-- C5 (amended): the matrix storage buffer allocated at build time has
byte capacity 9 x (input height, the `height` field of `KernelParams`) x 4
bytes, and every per-frame matrix upload actually issued by
`undistort_image` has byte length within that capacity. -/
theorem matrix_capacity_spec (aOk dOk : Bool) (p : KernelParams)
    (bd : BufferDescription) (dl : Nat) (s : WgpuWrapper)
    (hnew : (WgpuWrapper.new aOk dOk p bd dl).1 = some s) :
    s.params_size = 9 * usize_of_i32 p.height * 4 ∧
    ∀ (bd2 : BufferDescription) (itm : FrameTransform)
      (drawing staging : List Nat) (mapOk : Bool) (len : Nat),
      GpuEvent.WriteBufMatrices len
        ∈ (s.undistort_image bd2 itm drawing staging mapOk).2.2 →
      len ≤ s.params_size := by
  constructor
  · rw [new_some_eq hnew]
  · intro bd2 itm drawing staging mapOk len h
    exact writeBufMatrices_fits s bd2 itm drawing staging mapOk len h

/-- Witness for C5: the build of `matrix_capacity_spec` at input height 4
has a 144-byte matrix capacity, and a one-matrix upload (36 bytes) fits. -/
theorem matrix_capacity_spec_witness :
    ((WgpuWrapper.new true true ⟨1, 4, 1, 4, 1, 0, 0⟩
        ⟨(1, 4, 1), (1, 4, 1), .None⟩ 16).1 = some ⟨256, 4, 4, 144, 16⟩ ∧
      GpuEvent.WriteBufMatrices 36
        ∈ (WgpuWrapper.undistort_image ⟨256, 4, 4, 144, 16⟩
            ⟨(1, 4, 1), (1, 4, 1), .Vulkan 0⟩ ⟨1, ⟨0, 0, 0, 0, 0, 0, 0⟩⟩
            [] [] true).2.2) ∧
    (WgpuWrapper.params_size ⟨256, 4, 4, 144, 16⟩
        = 9 * usize_of_i32 (4 : Int) * 4 ∧
      36 ≤ WgpuWrapper.params_size ⟨256, 4, 4, 144, 16⟩) := by
  refine ⟨⟨by decide, by decide⟩, ?_⟩
  have h := matrix_capacity_spec true true ⟨1, 4, 1, 4, 1, 0, 0⟩
    ⟨(1, 4, 1), (1, 4, 1), .None⟩ 16 ⟨256, 4, 4, 144, 16⟩ (by decide)
  exact ⟨h.1, h.2 ⟨(1, 4, 1), (1, 4, 1), .Vulkan 0⟩ ⟨1, ⟨0, 0, 0, 0, 0, 0, 0⟩⟩
    [] [] true 36 (by decide)⟩

theorem chunksGo_nil (n f : Nat) : chunksGo n f [] = [] := by
  cases f <;> rfl

theorem chunksGo_congr (n : Nat) (hn : 1 ≤ n) :
    ∀ (f1 : Nat) (l : List Nat) (f2 : Nat),
      l.length ≤ f1 → l.length ≤ f2 → chunksGo n f1 l = chunksGo n f2 l := by
  intro f1
  induction f1 with
  | zero =>
      intro l f2 h1 _
      have hl : l = [] := List.length_eq_zero.mp (Nat.le_zero.mp h1)
      subst hl
      rw [chunksGo_nil, chunksGo_nil]
  | succ g ih =>
      intro l f2 h1 h2
      cases l with
      | nil => rw [chunksGo_nil, chunksGo_nil]
      | cons a t =>
          cases f2 with
          | zero => simp at h2
          | succ g2 =>
              simp only [chunksGo]
              congr 1
              apply ih
              · simp only [List.length_drop, List.length_cons] at *
                omega
              · simp only [List.length_drop, List.length_cons] at *
                omega

theorem chunks_cons (n : Nat) (hn : 1 ≤ n) (l : List Nat) (hl : l ≠ []) :
    chunks n l = l.take n :: chunks n (l.drop n) := by
  cases l with
  | nil => exact absurd rfl hl
  | cons a t =>
      simp only [chunks, List.length_cons, chunksGo]
      congr 1
      apply chunksGo_congr n hn
      · simp only [List.length_drop, List.length_cons]
        omega
      · exact Nat.le_refl _

theorem destriped_cons (padded stride : Nat) (hs : 1 ≤ stride)
    (hp : stride ≤ padded) (h : Nat) (data output : List Nat)
    (hd : data.length = (h + 1) * padded)
    (ho : output.length = (h + 1) * stride) :
    destriped padded stride data output
      = data.take stride
        ++ destriped padded stride (data.drop padded) (output.drop stride) := by
  have hp1 : 1 ≤ padded := Nat.le_trans hs hp
  have hdpos : 0 < data.length := by
    rw [hd]; exact Nat.mul_pos (Nat.succ_pos h) hp1
  have hopos : 0 < output.length := by
    rw [ho]; exact Nat.mul_pos (Nat.succ_pos h) hs
  have hdne : data ≠ [] := by
    intro e; rw [e] at hdpos; simp at hdpos
  have hone : output ≠ [] := by
    intro e; rw [e] at hopos; simp at hopos
  simp only [destriped]
  rw [chunks_cons padded hp1 data hdne, chunks_cons stride hs output hone]
  simp only [List.zip_cons_cons, List.map_cons, List.flatten_cons,
    List.length_cons, List.drop_succ_cons]
  rw [List.take_take, Nat.min_eq_left hp, List.append_assoc]

theorem destriped_length (padded stride : Nat) (hs : 1 ≤ stride)
    (hp : stride ≤ padded) :
    ∀ (h : Nat) (data output : List Nat),
      data.length = h * padded → output.length = h * stride →
      (destriped padded stride data output).length = h * stride := by
  intro h
  induction h with
  | zero =>
      intro data output hd ho
      have hdn : data = [] := List.length_eq_zero.mp (by simpa using hd)
      have hon : output = [] := List.length_eq_zero.mp (by simpa using ho)
      subst hdn; subst hon
      simp [destriped, chunks, chunksGo]
  | succ g ih =>
      intro data output hd ho
      rw [destriped_cons padded stride hs hp g data output hd ho]
      have hsd : stride ≤ data.length := by
        rw [hd]
        calc stride ≤ padded := hp
          _ = 1 * padded := (Nat.one_mul padded).symm
          _ ≤ (g + 1) * padded := Nat.mul_le_mul_right padded (by omega)
      have hd2 : (data.drop padded).length = g * padded := by
        simp only [List.length_drop]
        rw [hd, Nat.succ_mul]
        omega
      have ho2 : (output.drop stride).length = g * stride := by
        simp only [List.length_drop]
        rw [ho, Nat.succ_mul]
        omega
      rw [List.length_append, List.length_take, Nat.min_eq_left hsd,
        ih (data.drop padded) (output.drop stride) hd2 ho2, Nat.succ_mul]
      omega

theorem destriped_row (padded stride : Nat) (hs : 1 ≤ stride)
    (hp : stride ≤ padded) :
    ∀ (h : Nat) (data output : List Nat) (r : Nat),
      data.length = h * padded → output.length = h * stride → r < h →
      ((destriped padded stride data output).drop (r * stride)).take stride
        = (data.drop (r * padded)).take stride := by
  intro h
  induction h with
  | zero => intro data output r _ _ hr; exact absurd hr (Nat.not_lt_zero r)
  | succ g ih =>
      intro data output r hd ho hr
      rw [destriped_cons padded stride hs hp g data output hd ho]
      have hsd : stride ≤ data.length := by
        rw [hd]
        calc stride ≤ padded := hp
          _ = 1 * padded := (Nat.one_mul padded).symm
          _ ≤ (g + 1) * padded := Nat.mul_le_mul_right padded (by omega)
      have hlen : (data.take stride).length = stride := by
        rw [List.length_take]
        exact Nat.min_eq_left hsd
      cases r with
      | zero =>
          simp only [Nat.zero_mul, List.drop_zero]
          rw [List.take_left' hlen]
      | succ k =>
          have hd2 : (data.drop padded).length = g * padded := by
            simp only [List.length_drop]
            rw [hd, Nat.succ_mul]
            omega
          have ho2 : (output.drop stride).length = g * stride := by
            simp only [List.length_drop]
            rw [ho, Nat.succ_mul]
            omega
          have hm1 : (k + 1) * stride = (data.take stride).length + k * stride := by
            rw [hlen, Nat.succ_mul]
            omega
          rw [hm1, List.drop_append,
            ih (data.drop padded) (output.drop stride) k hd2 ho2 (by omega),
            List.drop_drop]
          have hm2 : padded + k * padded = (k + 1) * padded := by
            rw [Nat.succ_mul]
            omega
          rw [hm2]

/-- C3: on a CPU destination with a successful map, the fast path
(`padded_out_stride == output_stride`) copies the raw staging bytes into the
output buffer verbatim, and the destriping path
(`padded_out_stride > output_stride`) gives every output row exactly
`output_stride` bytes taken from the start of the corresponding padded
staging row, so no padding byte ever reaches the output buffer. -/
theorem undistort_readback_copy (s : WgpuWrapper)
    (bins bouts : Nat × Nat × Nat) (input output drawing staging : List Nat)
    (itm : FrameTransform)
    (hin : input.length = s.in_size)
    (hout : output.length = s.out_size)
    (hmat : itm.matricesByteLen ≤ s.params_size)
    (hdraw : drawing = [] ∨ drawing.length ≤ s.drawing_size)
    (hstride : 1 ≤ bouts.2.2)
    (hsmall : bouts.2.2 < 2 ^ 32)
    (hsp : bouts.2.2 ≤ s.padded_out_stride)
    (hst : staging.length = s.padded_out_stride * bouts.2.1)
    (hos : s.out_size = bouts.2.2 * bouts.2.1) :
    (s.undistort_image ⟨bins, bouts, .Cpu input output⟩
        itm drawing staging true).1 = true ∧
    (s.padded_out_stride = bouts.2.2 →
      (s.undistort_image ⟨bins, bouts, .Cpu input output⟩
          itm drawing staging true).2.1.buffers
        = BufferSource.Cpu input staging) ∧
    (bouts.2.2 < s.padded_out_stride →
      ∃ outNew,
        (s.undistort_image ⟨bins, bouts, .Cpu input output⟩
            itm drawing staging true).2.1.buffers
          = BufferSource.Cpu input outNew ∧
        outNew.length = bouts.2.2 * bouts.2.1 ∧
        ∀ rr, rr < bouts.2.1 →
          (outNew.drop (rr * bouts.2.2)).take bouts.2.2
            = (staging.drop (rr * s.padded_out_stride)).take bouts.2.2) := by
  have hu32 : u32_of_usize bouts.2.2 = bouts.2.2 := by
    simp only [u32_of_usize]
    exact Nat.mod_eq_of_lt hsmall
  have hr : s.undistort_image ⟨bins, bouts, .Cpu input output⟩
      itm drawing staging true
    = (true,
        ⟨bins, bouts, .Cpu input
          (if s.padded_out_stride = u32_of_usize bouts.2.2 then staging
           else destriped s.padded_out_stride bouts.2.2 staging output)⟩,
        (([GpuEvent.WriteTexture input.length bins.2.2]
            ++ [GpuEvent.WriteBufMatrices itm.matricesByteLen,
                GpuEvent.WriteBufParams])
            ++ (if drawing = [] then []
                else [GpuEvent.WriteBufDrawing drawing.length]))
          ++ [GpuEvent.Submit true]) := by
    simp only [WgpuWrapper.undistort_image, WgpuWrapper.undistort_rest]
    have h4 : ¬ (drawing ≠ [] ∧ s.drawing_size < drawing.length) := by
      rcases hdraw with h | h
      · simp [h]
      · simp only [not_and]
        intro _
        omega
    rw [if_neg (by omega : ¬ s.in_size ≠ input.length)]
    rw [if_neg (by omega : ¬ s.out_size ≠ output.length)]
    rw [if_neg (by omega : ¬ s.params_size < itm.matricesByteLen)]
    rw [if_neg h4]
    rfl
  refine ⟨?_, ?_, ?_⟩
  · rw [hr]
  · intro heq
    rw [hr]
    simp only
    rw [if_pos (by rw [hu32, heq])]
  · intro hlt
    refine ⟨destriped s.padded_out_stride bouts.2.2 staging output, ?_, ?_, ?_⟩
    · rw [hr]
      simp only
      rw [if_neg (by rw [hu32]; omega)]
    · rw [Nat.mul_comm]
      exact destriped_length s.padded_out_stride bouts.2.2 hstride hsp
        bouts.2.1 staging output (by rw [hst, Nat.mul_comm])
        (by rw [hout, hos, Nat.mul_comm])
    · intro rr hrr
      exact destriped_row s.padded_out_stride bouts.2.2 hstride hsp
        bouts.2.1 staging output rr (by rw [hst, Nat.mul_comm])
        (by rw [hout, hos, Nat.mul_comm]) hrr

/-- Witness for C3: a 1-byte-stride, 1-row frame with padded stride 2; the
destriping path keeps byte 5 (row start) and drops the padding byte 6. -/
theorem undistort_readback_copy_witness :
    ((WgpuWrapper.undistort_image ⟨2, 1, 1, 0, 16⟩
        ⟨(1, 1, 1), (1, 1, 1), .Cpu [9] [7]⟩
        ⟨0, ⟨0, 0, 0, 0, 0, 0, 0⟩⟩ [] [5, 6] true).1 = true ∧
      (1 < 2 →
        ∃ outNew,
          (WgpuWrapper.undistort_image ⟨2, 1, 1, 0, 16⟩
              ⟨(1, 1, 1), (1, 1, 1), .Cpu [9] [7]⟩
              ⟨0, ⟨0, 0, 0, 0, 0, 0, 0⟩⟩ [] [5, 6] true).2.1.buffers
            = BufferSource.Cpu [9] outNew ∧
          outNew.length = 1 * 1 ∧
          ∀ rr, rr < 1 →
            (outNew.drop (rr * 1)).take 1
              = (([5, 6] : List Nat).drop (rr * 2)).take 1)) := by
  have h := undistort_readback_copy ⟨2, 1, 1, 0, 16⟩ (1, 1, 1) (1, 1, 1)
    [9] [7] [] [5, 6] ⟨0, ⟨0, 0, 0, 0, 0, 0, 0⟩⟩
    (by decide) (by decide) (by decide) (Or.inl rfl)
    (by decide) (by decide) (by decide) (by decide) (by decide)
  exact ⟨h.1, fun _ => h.2.2 (by decide)⟩
